import Mathlib

/-!
Shallow embedding of the interceptor registry and dispatch engine of
`rust-runtime/aws-smithy-runtime-api/src/interceptors.rs`, together with the
retry-strategy runtime plugin of
`aws/sdk/integration-tests/aws-smithy-runtime-test/src/retry.rs`.

Modelling conventions:
- `InterceptorError`, `ConfigBag` and `InterceptorContext` live in modules
  (`error.rs`, `config_bag.rs`, `context.rs`) that the core treats as opaque
  collaborators; they are modelled as small concrete structures carrying the
  capabilities the core uses (an error payload, a type-keyed store with a slot
  for the retry strategy, the four context fields of the spec's data model).
- A Rust hook method `fn hook(&mut self, context: &InterceptorContext, cfg:
  &mut ConfigBag) -> Result<(), InterceptorError>` becomes a pure function from
  the interceptor's own state, the (read-only) context and the bag to a result
  together with the updated state and bag.  The context is NOT among the
  outputs of a hook, mirroring the shared reference `&InterceptorContext` in
  the trait signature.
- The `for interceptor in self.client_interceptors.iter_mut() {
  interceptor.hook(context, cfg)?; }` loop of the dispatch macro becomes the
  recursive `run_hook` below: it threads the bag, returns the updated
  interceptor list, and stops at the first error exactly where the `?`
  operator returns early.
-/

/-- Stand-in for `InterceptorError` (`error.rs`, outside the analysed sources):
an opaque error value identified by a numeric payload. -/
structure InterceptorError where
  code : Nat
deriving DecidableEq

/-- Modelled from the spec: the Configuration Bag is an opaque typed map from
type identity to value, with a slot for the active retry strategy.  We model
the strategy slot explicitly (as an optional handle) and the remaining
type-keyed entries as an association list of numeric codes. -/
structure ConfigBag where
  retryStrategy : Option Nat
  entries : List (Nat × Nat)
deriving DecidableEq

/-- A freshly created, empty configuration bag. -/
def ConfigBag.empty : ConfigBag := ⟨none, []⟩

/-- Modelled from the spec: the Execution Context of `context.rs` (outside the
analysed sources) holds the four phase-gated fields; each is an optional
numeric stand-in for the opaque request/response payloads. -/
structure InterceptorContext where
  modeled_request : Option Nat
  tx_request : Option Nat
  tx_response : Option Nat
  modeled_response : Option Nat
deriving DecidableEq

/-- The 19 hook methods of the `Interceptor` trait, in declaration order
(lines 38-528 of `interceptors.rs`). -/
inductive HookName where
  | read_before_execution
  | modify_before_serialization
  | read_before_serialization
  | read_after_serialization
  | modify_before_retry_loop
  | read_before_attempt
  | modify_before_signing
  | read_before_signing
  | read_after_signing
  | modify_before_transmit
  | read_before_transmit
  | read_after_transmit
  | modify_before_deserialization
  | read_before_deserialization
  | read_after_deserialization
  | modify_before_attempt_completion
  | read_after_attempt
  | modify_before_completion
  | read_after_execution
deriving DecidableEq, Fintype

/-- An interceptor's own mutable state (`&mut self` in the trait methods),
modelled as a list of numeric events the interceptor may record. -/
abbrev InterceptorState := List Nat

/-- The uniform shape of one hook method: from the hook name, the
interceptor's own state, the context (read-only) and the bag, to a result
plus the updated state and bag.  The context does not appear among the
outputs because the trait passes it by shared reference. -/
abbrev HookFn := HookName → InterceptorState → InterceptorContext → ConfigBag →
    Except InterceptorError Unit × InterceptorState × ConfigBag

/-- The default implementation every trait method receives from
`interceptor_trait_fn!`: bind the arguments to unused names and return
`Ok(())`, touching neither the bag nor the interceptor's own state. -/
def default_hook : HookFn := fun _ s _ cfg => (Except.ok (), s, cfg)

/-- A registered interceptor: its own state together with its hook table. -/
structure Interceptor where
  state : InterceptorState
  run : HookFn

/-- The interceptor registry: two insertion-ordered lists of interceptors
(`Interceptors<TxReq, TxRes>`, lines 530-533). -/
structure Interceptors where
  client_interceptors : List Interceptor
  operation_interceptors : List Interceptor

/-- `Interceptors::new`, which delegates to `Default`: both lists empty. -/
def Interceptors.new : Interceptors := ⟨[], []⟩

/-- `with_client_interceptor`: push onto the end of the client list. -/
def Interceptors.with_client_interceptor (self : Interceptors) (i : Interceptor) :
    Interceptors :=
  { self with client_interceptors := self.client_interceptors ++ [i] }

/-- `with_operation_interceptor`: push onto the end of the operation list. -/
def Interceptors.with_operation_interceptor (self : Interceptors) (i : Interceptor) :
    Interceptors :=
  { self with operation_interceptors := self.operation_interceptors ++ [i] }

/-- The loop body shared by every generated dispatch method:
`for interceptor in self.client_interceptors.iter_mut() {
interceptor.$inner_name(context, cfg)?; } Ok(())`.  The `?` operator makes
the loop return the first error immediately, leaving the remaining
interceptors untouched; on success the bag and the interceptors' states are
threaded left to right while the context is passed unchanged to each hook. -/
def run_hook (hook : HookName) (ctx : InterceptorContext) :
    List Interceptor → ConfigBag →
    Except InterceptorError Unit × List Interceptor × ConfigBag
  | [], cfg => (Except.ok (), [], cfg)
  | i :: rest, cfg =>
    let step := i.run hook i.state ctx cfg
    match step.1 with
    | Except.error e => (Except.error e, { i with state := step.2.1 } :: rest, step.2.2)
    | Except.ok _ =>
      let tail := run_hook hook ctx rest step.2.2
      (tail.1, { i with state := step.2.1 } :: tail.2.1, tail.2.2)

/-- The common body `interceptor_impl_fn!` expands to (lines 551-574): every
generated method, whether it takes the context by `&` or by `&mut`, iterates
`self.client_interceptors` only and never reads `self.operation_interceptors`;
the body never writes through the (possibly mutable) context reference, so
the context is returned unchanged alongside the result, the updated registry
and the updated bag. -/
def Interceptors.dispatch (self : Interceptors) (hook : HookName)
    (ctx : InterceptorContext) (cfg : ConfigBag) :
    Except InterceptorError Unit × InterceptorContext × Interceptors × ConfigBag :=
  let r := run_hook hook ctx self.client_interceptors cfg
  (r.1, ctx, { self with client_interceptors := r.2.1 }, r.2.2)

/-- The 20 public dispatch methods generated inside `impl Interceptors`
(lines 598-621), in source order. -/
inductive DispatchMethod where
  | client_read_before_execution
  | operation_read_before_execution
  | modify_before_serialization
  | read_before_serialization
  | read_after_serialization
  | modify_before_retry_loop
  | read_before_attempt
  | modify_before_signing
  | read_before_signing
  | read_after_signing
  | modify_before_transmit
  | read_before_transmit
  | read_after_transmit
  | modify_before_deserialization
  | read_before_deserialization
  | read_after_deserialization
  | modify_before_attempt_completion
  | read_after_attempt
  | modify_before_completion
  | read_after_execution
deriving DecidableEq, Fintype

/-- The inner trait hook each dispatch method invokes: the two
`*_read_before_execution` methods both invoke `read_before_execution`; every
other method invokes the hook of its own name. -/
def DispatchMethod.hook : DispatchMethod → HookName
  | client_read_before_execution => HookName.read_before_execution
  | operation_read_before_execution => HookName.read_before_execution
  | modify_before_serialization => HookName.modify_before_serialization
  | read_before_serialization => HookName.read_before_serialization
  | read_after_serialization => HookName.read_after_serialization
  | modify_before_retry_loop => HookName.modify_before_retry_loop
  | read_before_attempt => HookName.read_before_attempt
  | modify_before_signing => HookName.modify_before_signing
  | read_before_signing => HookName.read_before_signing
  | read_after_signing => HookName.read_after_signing
  | modify_before_transmit => HookName.modify_before_transmit
  | read_before_transmit => HookName.read_before_transmit
  | read_after_transmit => HookName.read_after_transmit
  | modify_before_deserialization => HookName.modify_before_deserialization
  | read_before_deserialization => HookName.read_before_deserialization
  | read_after_deserialization => HookName.read_after_deserialization
  | modify_before_attempt_completion => HookName.modify_before_attempt_completion
  | read_after_attempt => HookName.read_after_attempt
  | modify_before_completion => HookName.modify_before_completion
  | read_after_execution => HookName.read_after_execution

/-- Invoking one of the 20 generated dispatch methods: every one of them is
the same macro-generated body applied to its inner hook name. -/
def Interceptors.call_method (self : Interceptors) (m : DispatchMethod)
    (ctx : InterceptorContext) (cfg : ConfigBag) :
    Except InterceptorError Unit × InterceptorContext × Interceptors × ConfigBag :=
  self.dispatch m.hook ctx cfg

/-- Stand-in for `BoxError` in `retry.rs`: an opaque boxed error. -/
structure BoxError where
  code : Nat
deriving DecidableEq

/-- The unit struct `GetObjectRetryStrategy` of `retry.rs`. -/
structure GetObjectRetryStrategy where
deriving DecidableEq

/-- `GetObjectRetryStrategy::new`. -/
def GetObjectRetryStrategy.new : GetObjectRetryStrategy := ⟨⟩

/-- `RuntimePlugin::configure for GetObjectRetryStrategy` (retry.rs lines
20-25): the body is `// TODO put a retry strategy in the bag` followed by
`Ok(())` — it returns success without writing anything into the bag, so the
bag is returned unchanged. -/
def GetObjectRetryStrategy.configure (_self : GetObjectRetryStrategy)
    (cfg : ConfigBag) : Except BoxError Unit × ConfigBag :=
  (Except.ok (), cfg)

/-!
Concrete interceptors used to evaluate the dispatch engine on specific
inputs.  Each mirrors a trait implementor whose hooks mutate only what the
signatures allow: its own state (via `&mut self`) and the bag (via `&mut
ConfigBag`).
-/

/-- An interceptor that records its numeric id into its own state on every
hook invocation and succeeds. -/
def recorder (id : Nat) : Interceptor :=
  ⟨[], fun _ s _ cfg => (Except.ok (), s ++ [id], cfg)⟩

/-- An interceptor that records its numeric id into its own state on every
hook invocation and then raises the error carrying that id. -/
def failer (id : Nat) : Interceptor :=
  ⟨[], fun _ s _ cfg => (Except.error ⟨id⟩, s ++ [id], cfg)⟩

/-- An interceptor that appends one key-value pair to the configuration bag
on every hook invocation and succeeds. -/
def bag_writer (k v : Nat) : Interceptor :=
  ⟨[], fun _ s _ cfg => (Except.ok (), s, { cfg with entries := cfg.entries ++ [(k, v)] })⟩

/-- An interceptor that records, into its own state, the transport request it
observes in the context at invocation time. -/
def tx_observer : Interceptor :=
  ⟨[], fun _ s ctx cfg => (Except.ok (), s ++ [ctx.tx_request.getD 0], cfg)⟩

/-- A concrete execution context with a modeled request and a transport
request populated, as guaranteed at the signing phase. -/
def ctx0 : InterceptorContext := ⟨some 5, some 7, none, none⟩

/-!
Helper lemmas about the dispatch loop, shared by several results below.
-/

/-- The dispatch loop never adds or removes entries and never changes an
entry's hook table: it only updates each entry's own state. -/
theorem run_hook_map_run (hook : HookName) (ctx : InterceptorContext) :
    ∀ (l : List Interceptor) (cfg : ConfigBag),
    (run_hook hook ctx l cfg).2.1.map Interceptor.run = l.map Interceptor.run
  | [], _ => by simp [run_hook]
  | i :: rest, cfg => by
    simp only [run_hook]
    cases h : (i.run hook i.state ctx cfg).1 with
    | error e => simp [h]
    | ok u =>
      have ih := run_hook_map_run hook ctx rest (i.run hook i.state ctx cfg).2.2
      simp [h, ih]

/-- If the dispatch loop runs an initial segment to success, the loop over
the extended list first runs that segment and then continues with the rest
from the threaded bag. -/
theorem run_hook_append_ok (hook : HookName) (ctx : InterceptorContext) :
    ∀ (pre : List Interceptor) (cfg : ConfigBag),
    (run_hook hook ctx pre cfg).1 = Except.ok () →
    ∀ rest : List Interceptor,
      run_hook hook ctx (pre ++ rest) cfg =
        ((run_hook hook ctx rest (run_hook hook ctx pre cfg).2.2).1,
          (run_hook hook ctx pre cfg).2.1 ++
            (run_hook hook ctx rest (run_hook hook ctx pre cfg).2.2).2.1,
          (run_hook hook ctx rest (run_hook hook ctx pre cfg).2.2).2.2)
  | [], cfg, _, rest => by simp [run_hook]
  | i :: pre₀, cfg, h, rest => by
    cases hi : (i.run hook i.state ctx cfg).1 with
    | error e => simp [run_hook, hi] at h
    | ok u =>
      have h' : (run_hook hook ctx pre₀ (i.run hook i.state ctx cfg).2.2).1 =
          Except.ok () := by
        simpa [run_hook, hi] using h
      have ih := run_hook_append_ok hook ctx pre₀ (i.run hook i.state ctx cfg).2.2 h' rest
      simp [run_hook, hi, ih]

/-!
Registration histories, for reasoning about arbitrary sequences of
`with_client_interceptor` / `with_operation_interceptor` calls.
-/

/-- One registration call on the registry builder. -/
inductive RegEvent where
  | client (i : Interceptor)
  | operation (i : Interceptor)

/-- Replay a sequence of registration calls against a registry. -/
def apply_events : List RegEvent → Interceptors → Interceptors
  | [], r => r
  | RegEvent.client i :: evs, r => apply_events evs (r.with_client_interceptor i)
  | RegEvent.operation i :: evs, r => apply_events evs (r.with_operation_interceptor i)

/-- The interceptors a registration history registers client-scoped, in
order. -/
def clients_of (evs : List RegEvent) : List Interceptor :=
  evs.filterMap fun e => match e with
    | RegEvent.client i => some i
    | RegEvent.operation _ => none

/-- The interceptors a registration history registers operation-scoped, in
order. -/
def operations_of (evs : List RegEvent) : List Interceptor :=
  evs.filterMap fun e => match e with
    | RegEvent.client _ => none
    | RegEvent.operation i => some i

/-- Replaying a registration history appends exactly the registered
interceptors, in order, to the two lists of the starting registry. -/
theorem apply_events_eq : ∀ (evs : List RegEvent) (r : Interceptors),
    (apply_events evs r).client_interceptors = r.client_interceptors ++ clients_of evs ∧
    (apply_events evs r).operation_interceptors = r.operation_interceptors ++ operations_of evs
  | [], r => by simp [apply_events, clients_of, operations_of]
  | RegEvent.client i :: evs, r => by
    have ih := apply_events_eq evs (r.with_client_interceptor i)
    simpa [apply_events, clients_of, operations_of,
      Interceptors.with_client_interceptor] using ih
  | RegEvent.operation i :: evs, r => by
    have ih := apply_events_eq evs (r.with_operation_interceptor i)
    simpa [apply_events, clients_of, operations_of,
      Interceptors.with_operation_interceptor] using ih

/-!
Claim theorems.
-/

/-- Claim C7: the `Interceptor` trait consists of exactly 19 hook methods,
and every one of them defaults to a no-op: for every hook name, interceptor
state, context and configuration bag, the default implementation returns
success and leaves both the bag and the interceptor's own state unchanged;
consequently a registry populated with purely-default interceptors dispatches
any hook to success without touching anything. -/
theorem c7_nineteen_hooks_default_noop :
    Fintype.card HookName = 19 ∧
    (∀ (hook : HookName) (s : InterceptorState) (ctx : InterceptorContext) (cfg : ConfigBag),
      default_hook hook s ctx cfg = (Except.ok (), s, cfg)) ∧
    (∀ (n : Nat) (hook : HookName) (ctx : InterceptorContext) (cfg : ConfigBag),
      run_hook hook ctx (List.replicate n ⟨[], default_hook⟩) cfg =
        (Except.ok (), List.replicate n ⟨[], default_hook⟩, cfg)) := by
  refine ⟨by decide, fun _ _ _ _ => rfl, fun n hook ctx cfg => ?_⟩
  induction n with
  | zero => rfl
  | succ k ih => simp [List.replicate_succ, run_hook, default_hook, ih]

/-- Claim C10: a freshly constructed registry (`Interceptors::new`, i.e.
`Default::default()`, both lists empty) makes every one of the 20 dispatch
methods return success for every context and configuration bag, leaving the
context, the registry and the bag unchanged. -/
theorem c10_new_registry_every_dispatch_succeeds :
    Fintype.card DispatchMethod = 20 ∧
    ∀ (m : DispatchMethod) (ctx : InterceptorContext) (cfg : ConfigBag),
      Interceptors.new.call_method m ctx cfg = (Except.ok (), ctx, Interceptors.new, cfg) :=
  ⟨by decide, fun _ _ _ => rfl⟩

/-- Claim C9: every one of the 20 dispatch methods — the `modify_*` ones,
whose Rust signatures take the context by mutable reference, included —
returns the `InterceptorContext` unchanged, because each hook invocation
receives the context by shared reference; a dispatch can change only the
configuration bag and the interceptors' own internal state, never the
membership or hook tables of the registry nor the context. -/
theorem c9_dispatch_leaves_context_unchanged :
    ∀ (self : Interceptors) (m : DispatchMethod) (ctx : InterceptorContext) (cfg : ConfigBag),
      (self.call_method m ctx cfg).2.1 = ctx ∧
      ((self.call_method m ctx cfg).2.2.1).client_interceptors.map Interceptor.run =
        self.client_interceptors.map Interceptor.run ∧
      ((self.call_method m ctx cfg).2.2.1).operation_interceptors =
        self.operation_interceptors := by
  intro self m ctx cfg
  refine ⟨rfl, ?_, rfl⟩
  exact run_hook_map_run m.hook ctx self.client_interceptors cfg

/-- Claim C8: the registry's state is exactly the two insertion-ordered
lists, and it is append-only: replaying any history of
`with_client_interceptor` / `with_operation_interceptor` calls from
`Interceptors::new` yields precisely the client-registered interceptors in
the client list and the operation-registered ones in the operation list, in
registration order; and no dispatch removes an interceptor from either list
(a dispatch preserves every entry's hook table and position, touching only
entry states and the bag). -/
theorem c8_registry_two_ordered_lists_append_only :
    (∀ evs : List RegEvent,
      (apply_events evs Interceptors.new).client_interceptors = clients_of evs ∧
      (apply_events evs Interceptors.new).operation_interceptors = operations_of evs) ∧
    (∀ (self : Interceptors) (hook : HookName) (ctx : InterceptorContext) (cfg : ConfigBag),
      ((self.dispatch hook ctx cfg).2.2.1).client_interceptors.map Interceptor.run =
        self.client_interceptors.map Interceptor.run ∧
      ((self.dispatch hook ctx cfg).2.2.1).client_interceptors.length =
        self.client_interceptors.length ∧
      ((self.dispatch hook ctx cfg).2.2.1).operation_interceptors =
        self.operation_interceptors) := by
  constructor
  · intro evs
    have h := apply_events_eq evs Interceptors.new
    simpa [Interceptors.new] using h
  · intro self hook ctx cfg
    have h := run_hook_map_run hook ctx self.client_interceptors cfg
    refine ⟨h, ?_, rfl⟩
    have := congrArg List.length h
    simpa using this

/-- Claim C4: for a dispatch of a fail-fast phase hook (any hook other than
`read_before_execution`, `read_before_attempt` and `read_after_attempt`, e.g.
`read_before_signing`): if every interceptor before the i-th succeeds and the
i-th registered interceptor's hook raises an error, then no interceptor after
the i-th is invoked in that dispatch (the interceptors after the i-th come
out exactly as they went in) and the dispatch returns exactly that first
error, with the bag as the failing interceptor left it. -/
theorem c4_fail_fast_first_error_aborts (hook : HookName)
    (pre post ops : List Interceptor) (i : Interceptor)
    (ctx : InterceptorContext) (cfg : ConfigBag) (e : InterceptorError)
    (_hphase : hook ≠ HookName.read_before_execution ∧
      hook ≠ HookName.read_before_attempt ∧ hook ≠ HookName.read_after_attempt)
    (hpre : (run_hook hook ctx pre cfg).1 = Except.ok ())
    (hfail : (i.run hook i.state ctx (run_hook hook ctx pre cfg).2.2).1 =
      Except.error e) :
    Interceptors.dispatch ⟨pre ++ i :: post, ops⟩ hook ctx cfg =
      (Except.error e, ctx,
        ⟨(run_hook hook ctx pre cfg).2.1 ++
            { i with
              state := (i.run hook i.state ctx (run_hook hook ctx pre cfg).2.2).2.1 } ::
            post,
          ops⟩,
        (i.run hook i.state ctx (run_hook hook ctx pre cfg).2.2).2.2) := by
  have happ := run_hook_append_ok hook ctx pre cfg hpre (i :: post)
  simp only [Interceptors.dispatch, happ]
  simp [run_hook, hfail]

/-- Witness for claim C4 at the spec's own example: three `before_signing`
interceptors where the 1st fails — the 2nd and 3rd come out with their
states untouched (never invoked) and the dispatch reports the 1st's error. -/
theorem c4_fail_fast_first_error_aborts_witness :
    (HookName.read_before_signing ≠ HookName.read_before_execution ∧
      HookName.read_before_signing ≠ HookName.read_before_attempt ∧
      HookName.read_before_signing ≠ HookName.read_after_attempt) ∧
    (run_hook HookName.read_before_signing ctx0 [] ConfigBag.empty).1 = Except.ok () ∧
    ((failer 1).run HookName.read_before_signing (failer 1).state ctx0
        (run_hook HookName.read_before_signing ctx0 [] ConfigBag.empty).2.2).1 =
      Except.error ⟨1⟩ ∧
    Interceptors.dispatch ⟨[failer 1, recorder 2, recorder 3], []⟩
        HookName.read_before_signing ctx0 ConfigBag.empty =
      (Except.error ⟨1⟩, ctx0,
        ⟨[{ failer 1 with state := [1] }, recorder 2, recorder 3], []⟩,
        ConfigBag.empty) :=
  ⟨by decide, rfl, rfl,
    c4_fail_fast_first_error_aborts HookName.read_before_signing []
      [recorder 2, recorder 3] [] (failer 1) ctx0 ConfigBag.empty ⟨1⟩
      (by decide) rfl rfl⟩

/-- Claim C1 (evaluation of the code at the failing input): with one client
interceptor and one registered operation interceptor, every dispatch method —
even `operation_read_before_execution`, the one named for operation
interceptors — invokes only the client interceptor and never the operation
one: the client recorder comes out having recorded its invocation while the
operation recorder's state is still empty, refuting that a dispatch invokes
every member of the operation list after the client list. -/
theorem c1_operation_interceptors_never_invoked :
    ((Interceptors.new.with_client_interceptor (recorder 1)).with_operation_interceptor
          (recorder 2)).call_method DispatchMethod.operation_read_before_execution ctx0
        ConfigBag.empty =
      (Except.ok (), ctx0,
        ⟨[{ recorder 1 with state := [1] }], [recorder 2]⟩, ConfigBag.empty) ∧
    (((Interceptors.new.with_client_interceptor (recorder 1)).with_operation_interceptor
          (recorder 2)).call_method DispatchMethod.operation_read_before_execution ctx0
        ConfigBag.empty).2.2.1.client_interceptors.map Interceptor.state = [[1]] ∧
    (((Interceptors.new.with_client_interceptor (recorder 1)).with_operation_interceptor
          (recorder 2)).call_method DispatchMethod.operation_read_before_execution ctx0
        ConfigBag.empty).2.2.1.operation_interceptors.map Interceptor.state = [[]] :=
  ⟨rfl, rfl, rfl⟩

/-- Claim C2 (evaluation of the code at the failing input): dispatching
`before_execution` over three client interceptors where the 1st and 3rd fail
and the 2nd succeeds, the dispatch stops at the 1st failure: it reports the
1st interceptor's error (not the 3rd's) and the 2nd and 3rd interceptors are
never invoked (their states stay empty), refuting the collect-then-jump,
last-error-wins behaviour the trait documentation promises. -/
theorem c2_before_execution_stops_at_first_error :
    (((Interceptors.new.with_client_interceptor (failer 1)).with_client_interceptor
          (recorder 2)).with_client_interceptor (failer 3)).call_method
        DispatchMethod.client_read_before_execution ctx0 ConfigBag.empty =
      (Except.error ⟨1⟩, ctx0,
        ⟨[{ failer 1 with state := [1] }, recorder 2, failer 3], []⟩,
        ConfigBag.empty) ∧
    ((((Interceptors.new.with_client_interceptor (failer 1)).with_client_interceptor
          (recorder 2)).with_client_interceptor (failer 3)).call_method
        DispatchMethod.client_read_before_execution ctx0
        ConfigBag.empty).2.2.1.client_interceptors.map Interceptor.state =
      [[1], [], []] :=
  ⟨rfl, rfl⟩

/-- Claim C3 (evaluation of the code at the failing input): in a dispatch of
the modify hook `modify_before_signing` over two client interceptors, no
replacement of a context field can be made or seen — each hook receives the
context by shared reference and returns no context — so the second
interceptor observes the original transport request (7) and the dispatch
returns the context unchanged, while the first interceptor's configuration-bag
write IS visible in the threaded bag; the sequential fold is over the bag and
the interceptor states only, and over the context it is a snapshot. -/
theorem c3_modify_dispatch_context_is_snapshot :
    Interceptors.dispatch ⟨[bag_writer 9 9, tx_observer], []⟩
        HookName.modify_before_signing ctx0 ConfigBag.empty =
      (Except.ok (), ctx0,
        ⟨[bag_writer 9 9, { tx_observer with state := [7] }], []⟩,
        ⟨none, [(9, 9)]⟩) ∧
    ctx0.tx_request = some 7 :=
  ⟨rfl, rfl⟩

/-- Claim C6 (evaluation of the code at the failing input): the
`RuntimePlugin::configure` implementation of `GetObjectRetryStrategy` returns
success while writing nothing into the configuration bag (its body is a TODO
followed by `Ok(())`), so after `configure` on a fresh bag there is no retry
strategy in the bag for the driver to retrieve. -/
theorem c6_configure_installs_no_strategy :
    (∀ cfg : ConfigBag, GetObjectRetryStrategy.new.configure cfg = (Except.ok (), cfg)) ∧
    (GetObjectRetryStrategy.new.configure ConfigBag.empty).2.retryStrategy = none :=
  ⟨fun _ => rfl, rfl⟩
